import Mathlib

/-!
Shallow embedding of `src/handler.py` (Lambda-PDF-Generator).

The repository is a single AWS Lambda handler `generate_pdf(event, context)`:
it optionally decodes `event['body']` as JSON, extracts `filename` and
`html` (with fixed defaults when `body` is absent), renders the HTML to a
PDF file at `/tmp/<filename>`, uploads the file bytes to an S3 bucket with
`ACL='public-read'` and `ContentType='application/pdf'`, and returns a
response with status 200, permissive CORS headers, and the object URL
`https://<bucket>.s3.amazonaws.com/<key>` as the body.

External collaborators (the Python `json` module, the `pdfkit`/wkhtmltopdf
renderer, and the boto3 S3 client) are modelled as parameters of an `Env`
record: `loads` is an arbitrary decoder returning either a JSON value or a
decode error, `render` is an arbitrary renderer returning either PDF bytes
or a renderer error, and `uploadOk` says whether the S3 `put_object` call
succeeds (client-side parameter validation by boto3 is folded into upload
failure).  The mutable outside world is a `World` record: the `/tmp`
filesystem and the S3 store are association lists where an insert prepends
(so `List.lookup` returns the most recent write), and `calls` is the
chronological trace of attempted `put_object` calls.  Python exceptions are
modelled with `Except`: an uncaught exception is an `Except.error` outcome
paired with the world as mutated up to the point of failure.
-/

namespace PdfLambda

/-- A decoded JSON value, the result of Python `json.loads`. -/
inductive JVal where
  | jstr (s : String)
  | jnum (n : Int)
  | jbool (b : Bool)
  | jnull
  | jarr (elems : List JVal)
  | jobj (fields : List (String × JVal))

/-- The Python exceptions the handler can raise (all uncaught in the source). -/
inductive PyErr where
  | jsonDecodeError
  | keyError (k : String)
  | typeError
  | rendererError
  | fileNotFound
  | uploadError
  deriving Repr, DecidableEq

/-- Python `str()` as used by `'/tmp/\x7bkey\x7d'.format(key=key)` and by the
URL composition.  It is the identity on strings, which is the only case any
claim exercises; the renderings of containers are abbreviated placeholders
(CPython's exact `repr` of nested containers is not modelled, and boto3
would reject a non-string `Key` client-side, which the model folds into
upload failure). -/
def JVal.pyStr : JVal → String
  | .jstr s => s
  | .jnum n => toString n
  | .jbool true => "True"
  | .jbool false => "False"
  | .jnull => "None"
  | .jarr _ => "[...]"
  | .jobj _ => "\x7b...\x7d"

/-- Python subscripting `data[k]`: on a dict it is key lookup raising
`KeyError` when the key is absent; on any non-dict JSON value it raises
`TypeError`. -/
def JVal.getItem : JVal → String → Except PyErr JVal
  | .jobj fields, k =>
      match fields.lookup k with
      | some v => .ok v
      | none => .error (.keyError k)
  | _, _ => .error .typeError

/-- The Lambda event.  The source only tests `'body' in event` and reads
`event['body']` (a string to be JSON-decoded); other event keys are unused. -/
structure Event where
  body : Option String
  deriving Repr, DecidableEq

/-- An object stored in the bucket: its access control, content type and
content bytes. -/
structure S3Object where
  acl : String
  contentType : String
  content : String
  deriving Repr, DecidableEq

/-- The arguments of one `client.put_object(...)` call. -/
structure PutObjectCall where
  acl : String
  body : String
  contentType : String
  bucket : String
  key : String
  deriving Repr, DecidableEq

/-- The mutable outside world: the `/tmp` filesystem (path to file bytes),
the S3 store (bucket and key to object), and the chronological trace of
attempted `put_object` calls.  The two maps are association lists where a
write prepends, so `List.lookup` returns the most recent write. -/
structure World where
  tmp : List (String × String)
  s3 : List ((String × String) × S3Object)
  calls : List PutObjectCall
  deriving Repr, DecidableEq

/-- The process environment and the external collaborators:
`bucket` is `S3_BUCKET_NAME` read from the environment at process start;
`loads` models `json.loads`; `render` models
`pdfkit.from_string(html, filepath, configuration=config, options=\x7b\x7d)`
producing the PDF bytes for a given `html` value (or failing); `uploadOk`
says whether the S3 upload succeeds. -/
structure Env where
  bucket : String
  loads : String → Except PyErr JVal
  render : JVal → Except PyErr String
  uploadOk : Bool

/-- The value type of the response headers dict (the source mixes a string
value with the Python boolean `True`). -/
inductive HVal where
  | hstr (s : String)
  | hbool (b : Bool)
  deriving Repr, DecidableEq

/-- The handler's response dict. -/
structure Response where
  headers : List (String × HVal)
  statusCode : Nat
  body : String
  deriving Repr, DecidableEq

/-- The fixed default object key (misspelling reproduced from the source). -/
def defaultKey : String := "deafult-filename.pdf"

/-- The fixed default placeholder HTML document from the source. -/
def defaultHtml : String :=
  "<html><head></head><body><h1>It works! This is the default PDF.</h1></body></html>"

/-- The headers dict of the success response. -/
def corsHeaders : List (String × HVal) :=
  [("Access-Control-Allow-Origin", .hstr "*"),
   ("Access-Control-Allow-Credentials", .hbool true)]

/-- The object URL composed by
`"https://\x7b0\x7d.s3.amazonaws.com/\x7b1\x7d".format(S3_BUCKET_NAME, key)`. -/
def objectUrl (bucket key : String) : String :=
  "https://" ++ bucket ++ ".s3.amazonaws.com/" ++ key

/-- Lines 12-25 of the source: start from the defaults, and when `'body' in
event`, decode it with `json.loads` and read `data['filename']` and
`data['html']` (in that order, with no presence checks). -/
def resolveRequest (env : Env) (event : Event) : Except PyErr (JVal × JVal) :=
  match event.body with
  | none => .ok (.jstr defaultKey, .jstr defaultHtml)
  | some bodyStr =>
      match env.loads bodyStr with
      | .error e => .error e
      | .ok data =>
          match data.getItem "filename" with
          | .error e => .error e
          | .ok keyVal =>
              match data.getItem "html" with
              | .error e => .error e
              | .ok htmlVal => .ok (keyVal, htmlVal)

/-- The handler `generate_pdf(event, context)` (the `context` argument is
unused by the source).  Returns the world as mutated by the call together
with either the response dict or the uncaught exception. -/
def generate_pdf (env : Env) (event : Event) (w : World) :
    World × Except PyErr Response :=
  match resolveRequest env event with
  | .error e => (w, .error e)
  | .ok (key, html) =>
      let filepath := "/tmp/" ++ key.pyStr
      match env.render html with
      | .error e => (w, .error e)
      | .ok pdf =>
          let w1 : World := { w with tmp := (filepath, pdf) :: w.tmp }
          match w1.tmp.lookup filepath with
          | none => (w1, .error .fileNotFound)
          | some fileBytes =>
              let call : PutObjectCall :=
                { acl := "public-read"
                  body := fileBytes
                  contentType := "application/pdf"
                  bucket := env.bucket
                  key := key.pyStr }
              let w2 : World := { w1 with calls := w1.calls ++ [call] }
              if env.uploadOk then
                let w3 : World := { w2 with
                  s3 := ((env.bucket, key.pyStr),
                         { acl := call.acl
                           contentType := call.contentType
                           content := call.body }) :: w2.s3 }
                let object_url := objectUrl env.bucket key.pyStr
                (w3, .ok { headers := corsHeaders
                           statusCode := 200
                           body := object_url })
              else
                (w2, .error .uploadError)

/-! ### Characterization lemmas for the handler's paths -/

/-- Resolving a present body whose JSON object carries both fields yields
those fields. -/
theorem resolveRequest_body_ok (env : Env) (event : Event) (bodyStr : String)
    (fields : List (String × JVal)) (kv hv : JVal)
    (hb : event.body = some bodyStr)
    (hl : env.loads bodyStr = .ok (.jobj fields))
    (hf : fields.lookup "filename" = some kv)
    (hh : fields.lookup "html" = some hv) :
    resolveRequest env event = .ok (kv, hv) := by
  simp [resolveRequest, hb, hl, JVal.getItem, hf, hh]

/-- When every step succeeds, the handler's exact result: the file written
to `/tmp`, one `put_object` call appended to the trace, the object stored,
and the 200 response with the object URL. -/
theorem generate_pdf_success_eq (env : Env) (event : Event) (w : World)
    (key html : JVal) (pdf : String)
    (hres : resolveRequest env event = .ok (key, html))
    (hr : env.render html = .ok pdf)
    (hu : env.uploadOk = true) :
    generate_pdf env event w =
      ({ tmp := ("/tmp/" ++ key.pyStr, pdf) :: w.tmp
         s3 := ((env.bucket, key.pyStr),
                { acl := "public-read", contentType := "application/pdf",
                  content := pdf }) :: w.s3
         calls := w.calls ++
           [{ acl := "public-read", body := pdf,
              contentType := "application/pdf", bucket := env.bucket,
              key := key.pyStr }] },
       .ok { headers := corsHeaders, statusCode := 200,
             body := objectUrl env.bucket key.pyStr }) := by
  simp [generate_pdf, hres, hr, hu, List.lookup]

/-- When resolution fails (missing body key or bad JSON), the handler fails
with that error and the world is untouched. -/
theorem generate_pdf_resolve_error (env : Env) (event : Event) (w : World)
    (e : PyErr) (hres : resolveRequest env event = .error e) :
    generate_pdf env event w = (w, .error e) := by
  simp [generate_pdf, hres]

/-- When the renderer fails, the handler fails with that error and the world
is untouched. -/
theorem generate_pdf_render_error (env : Env) (event : Event) (w : World)
    (key html : JVal) (e : PyErr)
    (hres : resolveRequest env event = .ok (key, html))
    (hr : env.render html = .error e) :
    generate_pdf env event w = (w, .error e) := by
  simp [generate_pdf, hres, hr]

/-- When the upload fails, the handler fails with an upload error; the file
was written and the `put_object` call was attempted, but nothing is stored. -/
theorem generate_pdf_upload_error (env : Env) (event : Event) (w : World)
    (key html : JVal) (pdf : String)
    (hres : resolveRequest env event = .ok (key, html))
    (hr : env.render html = .ok pdf)
    (hu : env.uploadOk = false) :
    generate_pdf env event w =
      ({ tmp := ("/tmp/" ++ key.pyStr, pdf) :: w.tmp
         s3 := w.s3
         calls := w.calls ++
           [{ acl := "public-read", body := pdf,
              contentType := "application/pdf", bucket := env.bucket,
              key := key.pyStr }] },
       .error .uploadError) := by
  simp [generate_pdf, hres, hr, hu, List.lookup]

/-- Inverse direction: a returned response implies every step succeeded, and
pins down the response and the final world. -/
theorem generate_pdf_ok_inv (env : Env) (event : Event) (w w' : World)
    (r : Response) (hok : generate_pdf env event w = (w', .ok r)) :
    ∃ key html pdf,
      resolveRequest env event = .ok (key, html) ∧
      env.render html = .ok pdf ∧
      env.uploadOk = true ∧
      r = { headers := corsHeaders, statusCode := 200,
            body := objectUrl env.bucket key.pyStr } ∧
      w' = { tmp := ("/tmp/" ++ key.pyStr, pdf) :: w.tmp
             s3 := ((env.bucket, key.pyStr),
                    { acl := "public-read", contentType := "application/pdf",
                      content := pdf }) :: w.s3
             calls := w.calls ++
               [{ acl := "public-read", body := pdf,
                  contentType := "application/pdf", bucket := env.bucket,
                  key := key.pyStr }] } := by
  match hres : resolveRequest env event with
  | .error e =>
      rw [generate_pdf_resolve_error env event w e hres] at hok
      have h2 := congrArg Prod.snd hok
      simp at h2
  | .ok (key, html) =>
      match hr : env.render html with
      | .error e =>
          rw [generate_pdf_render_error env event w key html e hres hr] at hok
          have h2 := congrArg Prod.snd hok
          simp at h2
      | .ok pdf =>
          match hu : env.uploadOk with
          | false =>
              rw [generate_pdf_upload_error env event w key html pdf hres hr hu]
                at hok
              have h2 := congrArg Prod.snd hok
              simp at h2
          | true =>
              rw [generate_pdf_success_eq env event w key html pdf hres hr hu]
                at hok
              exact ⟨key, html, pdf, rfl, hr, rfl,
                     (Except.ok.inj (congrArg Prod.snd hok)).symm,
                     (congrArg Prod.fst hok).symm⟩

/-! ### Concrete fixtures used by the witnesses -/

/-- A decoded body carrying both string fields. -/
def testFields : List (String × JVal) :=
  [("filename", .jstr "report.pdf"), ("html", .jstr "<p>Hi</p>")]

/-- A decoded body with the same filename and different html. -/
def testFields2 : List (String × JVal) :=
  [("filename", .jstr "report.pdf"), ("html", .jstr "<p>Bye</p>")]

/-- A decoded body lacking the `filename` key. -/
def testFieldsNoFilename : List (String × JVal) :=
  [("html", .jstr "<p>Hi</p>")]

/-- A concrete environment: bucket `my-bucket`, a decoder recognizing three
body strings, a renderer succeeding on every string html, upload succeeding. -/
def testEnv : Env :=
  { bucket := "my-bucket"
    loads := fun s =>
      if s = "good" then .ok (.jobj testFields)
      else if s = "good2" then .ok (.jobj testFields2)
      else if s = "nofilename" then .ok (.jobj testFieldsNoFilename)
      else .error .jsonDecodeError
    render := fun h =>
      match h with
      | .jstr s => .ok ("PDF:" ++ s)
      | _ => .error .rendererError
    uploadOk := true }

def emptyWorld : World := { tmp := [], s3 := [], calls := [] }

def goodEvent : Event := { body := some "good" }

def goodEvent2 : Event := { body := some "good2" }

def noBodyEvent : Event := { body := none }

def noFilenameEvent : Event := { body := some "nofilename" }

def badJsonEvent : Event := { body := some "not json" }

/-- The world after running `goodEvent` from the empty world. -/
def goodWorld : World :=
  { tmp := [("/tmp/report.pdf", "PDF:<p>Hi</p>")]
    s3 := [(("my-bucket", "report.pdf"),
            { acl := "public-read", contentType := "application/pdf",
              content := "PDF:<p>Hi</p>" })]
    calls := [{ acl := "public-read", body := "PDF:<p>Hi</p>",
                contentType := "application/pdf", bucket := "my-bucket",
                key := "report.pdf" }] }

/-- The response of a successful run with filename `report.pdf`. -/
def goodResp : Response :=
  { headers := corsHeaders, statusCode := 200
    body := "https://my-bucket.s3.amazonaws.com/report.pdf" }

/-- The same response record, as returned by the second run (`goodEvent2`). -/
def goodResp2 : Response :=
  { headers := corsHeaders, statusCode := 200
    body := "https://my-bucket.s3.amazonaws.com/report.pdf" }

/-- Sanity check: the concrete good run computes to the expected pair. -/
theorem testEnv_good_run : generate_pdf testEnv goodEvent emptyWorld =
    (goodWorld, .ok goodResp) := rfl

/-- Sanity check: resolution of the concrete good event. -/
theorem testEnv_good_resolve : resolveRequest testEnv goodEvent =
    .ok (.jstr "report.pdf", .jstr "<p>Hi</p>") := rfl

/-- Sanity check: resolution of the second concrete event. -/
theorem testEnv_good2_resolve : resolveRequest testEnv goodEvent2 =
    .ok (.jstr "report.pdf", .jstr "<p>Bye</p>") := rfl

/-- Sanity check: an unrecognized body string fails to decode. -/
theorem testEnv_bad_resolve : resolveRequest testEnv badJsonEvent =
    .error .jsonDecodeError := rfl

/-! ### Claim theorems -/

/-- Claim C1: for every event whose body is a JSON object with string
fields `filename` and `html`, a successful call to `generate_pdf` returns a
response whose body is exactly `https://BUCKET.s3.amazonaws.com/filename`,
where `BUCKET` is the configured bucket name read from the environment at
process start. -/
theorem claim1_url_of_valid_body (env : Env) (event : Event) (w w' : World)
    (r : Response) (bodyStr filename html : String)
    (fields : List (String × JVal))
    (hb : event.body = some bodyStr)
    (hl : env.loads bodyStr = .ok (.jobj fields))
    (hf : fields.lookup "filename" = some (.jstr filename))
    (hh : fields.lookup "html" = some (.jstr html))
    (hok : generate_pdf env event w = (w', .ok r)) :
    r.body = "https://" ++ env.bucket ++ ".s3.amazonaws.com/" ++ filename := by
  obtain ⟨key, html2, pdf, hres, hr, hu, hresp, hw⟩ :=
    generate_pdf_ok_inv env event w w' r hok
  have h1 := resolveRequest_body_ok env event bodyStr fields _ _ hb hl hf hh
  have hkey : key = .jstr filename :=
    (congrArg Prod.fst (Except.ok.inj (h1.symm.trans hres))).symm
  rw [hresp, hkey]
  simp [objectUrl, JVal.pyStr]

/-- Witness for C1: the concrete valid event returns the concrete URL. -/
theorem claim1_witness :
    goodResp.body = "https://" ++ testEnv.bucket ++ ".s3.amazonaws.com/" ++
      "report.pdf" :=
  claim1_url_of_valid_body testEnv goodEvent emptyWorld goodWorld goodResp
    "good" "report.pdf" "<p>Hi</p>" testFields rfl rfl rfl rfl rfl

/-- Claim C2: for every event without a `body` field, `generate_pdf`
renders the fixed placeholder HTML, uploads the rendered bytes under the
fixed (misspelled) default key `deafult-filename.pdf`, and returns the
public URL for that default key. -/
theorem claim2_default_path (env : Env) (event : Event) (w : World)
    (pdf : String)
    (hb : event.body = none)
    (hr : env.render (.jstr defaultHtml) = .ok pdf)
    (hu : env.uploadOk = true) :
    generate_pdf env event w =
      ({ tmp := ("/tmp/" ++ "deafult-filename.pdf", pdf) :: w.tmp
         s3 := ((env.bucket, "deafult-filename.pdf"),
                { acl := "public-read", contentType := "application/pdf",
                  content := pdf }) :: w.s3
         calls := w.calls ++
           [{ acl := "public-read", body := pdf,
              contentType := "application/pdf", bucket := env.bucket,
              key := "deafult-filename.pdf" }] },
       .ok { headers := corsHeaders, statusCode := 200,
             body := objectUrl env.bucket "deafult-filename.pdf" }) := by
  have hres : resolveRequest env event =
      .ok (.jstr defaultKey, .jstr defaultHtml) := by
    simp [resolveRequest, hb]
  exact generate_pdf_success_eq env event w _ _ pdf hres hr hu

/-- Witness for C2: the concrete bodiless event, run in the concrete
environment, stores and names the default document. -/
theorem claim2_witness :
    generate_pdf testEnv noBodyEvent emptyWorld =
      ({ tmp := [("/tmp/" ++ "deafult-filename.pdf", "PDF:" ++ defaultHtml)]
         s3 := [(("my-bucket", "deafult-filename.pdf"),
                 { acl := "public-read", contentType := "application/pdf",
                   content := "PDF:" ++ defaultHtml })]
         calls := [{ acl := "public-read", body := "PDF:" ++ defaultHtml,
                     contentType := "application/pdf", bucket := "my-bucket",
                     key := "deafult-filename.pdf" }] },
       .ok { headers := corsHeaders, statusCode := 200,
             body := objectUrl testEnv.bucket "deafult-filename.pdf" }) :=
  claim2_default_path testEnv noBodyEvent emptyWorld ("PDF:" ++ defaultHtml)
    rfl rfl rfl

/-- Claim C3: for every event whose body decodes to a JSON object lacking
`filename` or lacking `html`, `generate_pdf` fails with a lookup error
(`KeyError`) and the world is unchanged: no file is written and no upload
is performed, in particular nothing is stored under the default key. -/
theorem claim3_missing_key_no_upload (env : Env) (event : Event) (w : World)
    (bodyStr : String) (fields : List (String × JVal))
    (hb : event.body = some bodyStr)
    (hl : env.loads bodyStr = .ok (.jobj fields))
    (hmiss : fields.lookup "filename" = none ∨ fields.lookup "html" = none) :
    ∃ k, generate_pdf env event w = (w, .error (.keyError k)) := by
  rcases hmiss with hm | hm
  · refine ⟨"filename", generate_pdf_resolve_error env event w _ ?_⟩
    simp [resolveRequest, hb, hl, JVal.getItem, hm]
  · cases hf : fields.lookup "filename" with
    | none =>
        refine ⟨"filename", generate_pdf_resolve_error env event w _ ?_⟩
        simp [resolveRequest, hb, hl, JVal.getItem, hf]
    | some kv =>
        refine ⟨"html", generate_pdf_resolve_error env event w _ ?_⟩
        simp [resolveRequest, hb, hl, JVal.getItem, hf, hm]

/-- Witness for C3: the concrete body lacking `filename` raises a lookup
error and leaves the world empty. -/
theorem claim3_witness :
    ∃ k, generate_pdf testEnv noFilenameEvent emptyWorld =
      (emptyWorld, .error (.keyError k)) :=
  claim3_missing_key_no_upload testEnv noFilenameEvent emptyWorld
    "nofilename" testFieldsNoFilename rfl rfl (Or.inl rfl)

/-- Claim C4: the success response (status 200, URL body) is returned
exactly when every step succeeded, and on any failing step (bad JSON or
missing key, i.e. failed resolution; renderer failure; upload failure) the
handler propagates an error and returns no response; no structured error
body exists. -/
theorem claim4_failure_propagates (env : Env) (event : Event) (w : World) :
    (∀ w' r, generate_pdf env event w = (w', .ok r) →
        ∃ key html pdf,
          resolveRequest env event = .ok (key, html) ∧
          env.render html = .ok pdf ∧
          env.uploadOk = true ∧
          r = { headers := corsHeaders, statusCode := 200,
                body := objectUrl env.bucket key.pyStr }) ∧
    (∀ e, resolveRequest env event = .error e →
        generate_pdf env event w = (w, .error e)) ∧
    (∀ key html e, resolveRequest env event = .ok (key, html) →
        env.render html = .error e →
        generate_pdf env event w = (w, .error e)) ∧
    (∀ key html pdf, resolveRequest env event = .ok (key, html) →
        env.render html = .ok pdf → env.uploadOk = false →
        ∃ wf, generate_pdf env event w = (wf, .error .uploadError)) := by
  refine ⟨?_, ?_, ?_, ?_⟩
  · intro w' r hok
    obtain ⟨key, html, pdf, hres, hr, hu, hresp, _⟩ :=
      generate_pdf_ok_inv env event w w' r hok
    exact ⟨key, html, pdf, hres, hr, hu, hresp⟩
  · intro e hres
    exact generate_pdf_resolve_error env event w e hres
  · intro key html e hres hr
    exact generate_pdf_render_error env event w key html e hres hr
  · intro key html pdf hres hr hu
    exact ⟨_, generate_pdf_upload_error env event w key html pdf hres hr hu⟩

/-- Witness for C4: a malformed JSON body makes the concrete call fail with
a decode error, world untouched. -/
theorem claim4_witness :
    generate_pdf testEnv badJsonEvent emptyWorld =
      (emptyWorld, .error .jsonDecodeError) :=
  (claim4_failure_propagates testEnv badJsonEvent emptyWorld).2.1
    .jsonDecodeError rfl

/-- Claim C5: every successful call performs exactly one `put_object` call,
and that call passes content-type `application/pdf`. -/
theorem claim5_content_type (env : Env) (event : Event) (w w' : World)
    (r : Response)
    (hok : generate_pdf env event w = (w', .ok r)) :
    ∃ c, w'.calls = w.calls ++ [c] ∧ c.contentType = "application/pdf" := by
  obtain ⟨key, html, pdf, hres, hr, hu, hresp, hw⟩ :=
    generate_pdf_ok_inv env event w w' r hok
  subst hw
  exact ⟨_, rfl, rfl⟩

/-- Witness for C5: the concrete successful run appends one call with
content-type `application/pdf`. -/
theorem claim5_witness :
    ∃ c, goodWorld.calls = emptyWorld.calls ++ [c] ∧
      c.contentType = "application/pdf" :=
  claim5_content_type testEnv goodEvent emptyWorld goodWorld goodResp rfl

/-- Claim C6: every successful call performs exactly one `put_object` call
with access control `public-read`, and the stored object records that ACL. -/
theorem claim6_public_read (env : Env) (event : Event) (w w' : World)
    (r : Response)
    (hok : generate_pdf env event w = (w', .ok r)) :
    ∃ c, w'.calls = w.calls ++ [c] ∧ c.acl = "public-read" ∧
      ∃ k obj, w'.s3 = (k, obj) :: w.s3 ∧ obj.acl = "public-read" := by
  obtain ⟨key, html, pdf, hres, hr, hu, hresp, hw⟩ :=
    generate_pdf_ok_inv env event w w' r hok
  subst hw
  exact ⟨_, rfl, rfl, _, _, rfl, rfl⟩

/-- Witness for C6: the concrete successful run uploads with ACL
`public-read`. -/
theorem claim6_witness :
    ∃ c, goodWorld.calls = emptyWorld.calls ++ [c] ∧ c.acl = "public-read" ∧
      ∃ k obj, goodWorld.s3 = (k, obj) :: emptyWorld.s3 ∧
        obj.acl = "public-read" :=
  claim6_public_read testEnv goodEvent emptyWorld goodWorld goodResp rfl

/-- Claim C7: two successive successful calls with the same filename but
different html return the same URL body, and afterwards the object stored
under that key is the second call's rendered content (last writer wins). -/
theorem claim7_last_writer_wins (env : Env) (e1 e2 : Event) (w : World)
    (f : String) (h1 h2 : JVal) (pdf1 pdf2 : String)
    (hres1 : resolveRequest env e1 = .ok (.jstr f, h1))
    (hres2 : resolveRequest env e2 = .ok (.jstr f, h2))
    (_hne : h1 ≠ h2)
    (hr1 : env.render h1 = .ok pdf1)
    (hr2 : env.render h2 = .ok pdf2)
    (hu : env.uploadOk = true) :
    ∃ w1 r1 w2 r2,
      generate_pdf env e1 w = (w1, .ok r1) ∧
      generate_pdf env e2 w1 = (w2, .ok r2) ∧
      r1.body = r2.body ∧
      w2.s3.lookup (env.bucket, f) =
        some { acl := "public-read", contentType := "application/pdf",
               content := pdf2 } := by
  refine ⟨_, _, _, _,
    generate_pdf_success_eq env e1 w _ _ pdf1 hres1 hr1 hu,
    generate_pdf_success_eq env e2 _ _ _ pdf2 hres2 hr2 hu, rfl, ?_⟩
  simp [JVal.pyStr, List.lookup]

/-- Witness for C7: the two concrete runs with filename `report.pdf` and
different html share a URL, and the stored content is the second render. -/
theorem claim7_witness :
    ∃ w1 r1 w2 r2,
      generate_pdf testEnv goodEvent emptyWorld = (w1, .ok r1) ∧
      generate_pdf testEnv goodEvent2 w1 = (w2, .ok r2) ∧
      r1.body = r2.body ∧
      w2.s3.lookup (testEnv.bucket, "report.pdf") =
        some { acl := "public-read", contentType := "application/pdf",
               content := "PDF:<p>Bye</p>" } :=
  claim7_last_writer_wins testEnv goodEvent goodEvent2 emptyWorld
    "report.pdf" (.jstr "<p>Hi</p>") (.jstr "<p>Bye</p>")
    "PDF:<p>Hi</p>" "PDF:<p>Bye</p>" rfl rfl (by simp) rfl rfl rfl

/-- Claim C8: every successful call returns status 200, headers exactly
`Access-Control-Allow-Origin: *` and `Access-Control-Allow-Credentials:
true`, and body equal to the public object URL as a plain string. -/
theorem claim8_response_shape (env : Env) (event : Event) (w w' : World)
    (r : Response)
    (hok : generate_pdf env event w = (w', .ok r)) :
    r.statusCode = 200 ∧
    r.headers = [("Access-Control-Allow-Origin", HVal.hstr "*"),
                 ("Access-Control-Allow-Credentials", HVal.hbool true)] ∧
    ∃ key html, resolveRequest env event = .ok (key, html) ∧
      r.body = objectUrl env.bucket key.pyStr := by
  obtain ⟨key, html, pdf, hres, hr, hu, hresp, hw⟩ :=
    generate_pdf_ok_inv env event w w' r hok
  subst hresp
  exact ⟨rfl, rfl, key, html, hres, rfl⟩

/-- Witness for C8: the concrete successful response has the claimed
shape. -/
theorem claim8_witness :
    goodResp.statusCode = 200 ∧
    goodResp.headers = [("Access-Control-Allow-Origin", HVal.hstr "*"),
                        ("Access-Control-Allow-Credentials", HVal.hbool true)] ∧
    ∃ key html, resolveRequest testEnv goodEvent = .ok (key, html) ∧
      goodResp.body = objectUrl testEnv.bucket key.pyStr :=
  claim8_response_shape testEnv goodEvent emptyWorld goodWorld goodResp rfl

/-- Lookup stays defined after consing a new binding: the handler only ever
prepends to the `/tmp` map, so existing files survive. -/
theorem lookup_isSome_cons {α β : Type} [BEq α] (k : α) (v : β)
    (l : List (α × β)) (p : α) (h : (l.lookup p).isSome) :
    (List.lookup p ((k, v) :: l)).isSome := by
  rw [List.lookup]
  split <;> simp_all

/-- Claim C9: the rendered PDF is written to transient storage at
`/tmp/<filename>`, and the handler never deletes any `/tmp` file: every
path present before the call is still present after it (on every path,
success or failure), and after a successful call the file at
`/tmp/<filename>` holds the rendered bytes. -/
theorem claim9_tmp_file_persists (env : Env) (event : Event) (w : World) :
    (∀ p, (w.tmp.lookup p).isSome →
        (((generate_pdf env event w).1).tmp.lookup p).isSome) ∧
    (∀ w' r, generate_pdf env event w = (w', .ok r) →
        ∃ key html pdf, resolveRequest env event = .ok (key, html) ∧
          env.render html = .ok pdf ∧
          w'.tmp.lookup ("/tmp/" ++ key.pyStr) = some pdf) := by
  constructor
  · intro p hp
    match hres : resolveRequest env event with
    | .error e =>
        rw [generate_pdf_resolve_error env event w e hres]
        exact hp
    | .ok (key, html) =>
        match hr : env.render html with
        | .error e =>
            rw [generate_pdf_render_error env event w key html e hres hr]
            exact hp
        | .ok pdf =>
            match hu : env.uploadOk with
            | false =>
                rw [generate_pdf_upload_error env event w key html pdf
                  hres hr hu]
                exact lookup_isSome_cons _ _ _ _ hp
            | true =>
                rw [generate_pdf_success_eq env event w key html pdf
                  hres hr hu]
                exact lookup_isSome_cons _ _ _ _ hp
  · intro w' r hok
    obtain ⟨key, html, pdf, hres, hr, hu, hresp, hw⟩ :=
      generate_pdf_ok_inv env event w w' r hok
    subst hw
    exact ⟨key, html, pdf, hres, hr, by simp [List.lookup]⟩

/-- Witness for C9: after the concrete successful run the rendered file is
still at `/tmp/report.pdf`, and a pre-existing `/tmp` file survives. -/
theorem claim9_witness :
    ∃ key html pdf, resolveRequest testEnv goodEvent = .ok (key, html) ∧
      testEnv.render html = .ok pdf ∧
      goodWorld.tmp.lookup ("/tmp/" ++ key.pyStr) = some pdf :=
  (claim9_tmp_file_persists testEnv goodEvent emptyWorld).2
    goodWorld goodResp rfl

/-- Claim C10: two successful calls whose bodies are JSON objects with the
same filename (and arbitrary html values), against the same bucket
configuration, return identical responses: the html never influences the
returned response. -/
theorem claim10_response_ignores_html (env : Env) (e1 e2 : Event)
    (w1 w2 w1' w2' : World) (r1 r2 : Response)
    (b1 b2 f : String) (fs1 fs2 : List (String × JVal)) (h1 h2 : JVal)
    (hb1 : e1.body = some b1) (hl1 : env.loads b1 = .ok (.jobj fs1))
    (hf1 : fs1.lookup "filename" = some (.jstr f))
    (hh1 : fs1.lookup "html" = some h1)
    (hb2 : e2.body = some b2) (hl2 : env.loads b2 = .ok (.jobj fs2))
    (hf2 : fs2.lookup "filename" = some (.jstr f))
    (hh2 : fs2.lookup "html" = some h2)
    (hok1 : generate_pdf env e1 w1 = (w1', .ok r1))
    (hok2 : generate_pdf env e2 w2 = (w2', .ok r2)) :
    r1 = r2 := by
  obtain ⟨k1, v1, p1, hres1, _, _, hresp1, _⟩ :=
    generate_pdf_ok_inv env e1 w1 w1' r1 hok1
  obtain ⟨k2, v2, p2, hres2, _, _, hresp2, _⟩ :=
    generate_pdf_ok_inv env e2 w2 w2' r2 hok2
  have e1res := resolveRequest_body_ok env e1 b1 fs1 _ _ hb1 hl1 hf1 hh1
  have e2res := resolveRequest_body_ok env e2 b2 fs2 _ _ hb2 hl2 hf2 hh2
  have hk1 : k1 = .jstr f :=
    (congrArg Prod.fst (Except.ok.inj (e1res.symm.trans hres1))).symm
  have hk2 : k2 = .jstr f :=
    (congrArg Prod.fst (Except.ok.inj (e2res.symm.trans hres2))).symm
  rw [hresp1, hresp2, hk1, hk2]

/-- Witness for C10: the two concrete events differ only in html and get
identical responses. -/
theorem claim10_witness : goodResp = goodResp2 :=
  claim10_response_ignores_html testEnv goodEvent goodEvent2
    emptyWorld goodWorld goodWorld
    { tmp := ("/tmp/report.pdf", "PDF:<p>Bye</p>") :: goodWorld.tmp
      s3 := (("my-bucket", "report.pdf"),
             { acl := "public-read", contentType := "application/pdf",
               content := "PDF:<p>Bye</p>" }) :: goodWorld.s3
      calls := goodWorld.calls ++
        [{ acl := "public-read", body := "PDF:<p>Bye</p>",
           contentType := "application/pdf", bucket := "my-bucket",
           key := "report.pdf" }] }
    goodResp goodResp2 "good" "good2" "report.pdf" testFields testFields2
    (.jstr "<p>Hi</p>") (.jstr "<p>Bye</p>")
    rfl rfl rfl rfl rfl rfl rfl rfl rfl rfl

end PdfLambda
